import Mathlib

/-!
Shallow embedding of
`src/Gems/Atom/Feature/Common/Code/Source/RayTracing/RayTracingAccelerationStructurePass.cpp`
(o3de). The two functions under study are
`RayTracingAccelerationStructurePass::SetupFrameGraphDependencies` and
`RayTracingAccelerationStructurePass::BuildCommandList`.

Modelling conventions:
- GPU handles (a sub-mesh BLAS reference, a transform, a non-uniform scale)
  are opaque payloads; only identity matters to the pass, so they are `Nat`
  tokens copied around verbatim.
- `m_irradianceColor.GetA()` (the opacity/alpha channel) is modelled as `Rat`;
  the pass only compares it against `1.0` with a strict `<`.
- The `BlasInstanceMap` is iterated with unspecified order in the source
  (`for (auto& blasInstance : blasInstances)`); it is modelled as a list of
  (asset-GUID-hash, instance) pairs in some fixed but arbitrary order.
- `SKINNED_BLAS_REBUILD_FRAME_INTERVAL` is declared in the pass header, which
  is not part of the sources here; the spec only says it is a fixed positive
  tuning constant ("every few frames"), so every definition takes it as an
  explicit `interval` parameter.
- `AZ_Assert` failures and null-pointer dereferences terminate execution;
  both are modelled as a `FatalError` result of `setupFrameGraphDependencies`.
- Collaborator results (attachment validity, import success, pass lookup,
  binding lookup, attachment-use success) are environment inputs.
-/

/-- One entry of `RayTracingFeatureProcessor::SubMeshVector` as read by the
pass: `m_mesh->m_instanceMask`, `m_blas`, `m_mesh->m_transform`,
`m_mesh->m_nonUniformScale`, and the alpha channel of `m_irradianceColor`. -/
structure SubMesh where
  instanceMask : Nat
  blas : Nat
  transform : Nat
  nonUniformScale : Nat
  irradianceColorA : Rat
deriving DecidableEq, Repr

/-- One TLAS instance descriptor as produced by the builder chain
`Instance()->InstanceID(...)->InstanceMask(...)->HitGroupIndex(0)->Blas(...)
->Transform(...)->NonUniformScale(...)->Transparent(...)`. -/
structure TlasInstanceDesc where
  instanceID : Nat
  instanceMask : Nat
  hitGroupIndex : Nat
  blas : Nat
  transform : Nat
  nonUniformScale : Nat
  transparent : Bool
deriving DecidableEq, Repr

/-- Body of the per-sub-mesh descriptor construction in
`SetupFrameGraphDependencies` (source lines 75-83). -/
def mkInstanceDesc (instanceIndex : Nat) (subMesh : SubMesh) : TlasInstanceDesc :=
  { instanceID := instanceIndex
    instanceMask := subMesh.instanceMask
    hitGroupIndex := 0
    blas := subMesh.blas
    transform := subMesh.transform
    nonUniformScale := subMesh.nonUniformScale
    transparent := subMesh.irradianceColorA < 1 }

/-- The `for (auto& subMesh : subMeshes)` loop of
`SetupFrameGraphDependencies`, with the running `instanceIndex` counter
(initialised to 0, incremented once per sub-mesh). -/
def buildTlasInstances (instanceIndex : Nat) : List SubMesh → List TlasInstanceDesc
  | [] => []
  | subMesh :: rest => mkInstanceDesc instanceIndex subMesh :: buildTlasInstances (instanceIndex + 1) rest

/-- The TLAS descriptor built from the current sub-mesh vector
(source lines 68-86): `instanceIndex` starts at 0. -/
def buildTlasDescriptor (subMeshes : List SubMesh) : List TlasInstanceDesc :=
  buildTlasInstances 0 subMeshes

/-- One value of `RayTracingFeatureProcessor::BlasInstanceMap`: the ordered
per-sub-mesh BLAS references `m_subMeshes` (each reference an opaque token),
`m_blasBuilt`, and `m_isSkinnedMesh`. -/
structure BlasInstance where
  subMeshes : List Nat
  blasBuilt : Bool
  isSkinnedMesh : Bool
deriving DecidableEq, Repr

/-- The slice of `RayTracingFeatureProcessor` state the pass reads:
`GetRevision()`, `GetSubMeshes()` (with `GetSubMeshCount()` its length),
`GetSkinnedMeshCount()`, `GetBlasInstances()` (pairs of
`first.m_guid.GetHash()` and the instance), and whether
`GetTlas()->GetTlasBuffer()` is non-null. -/
structure FeatureProcessorState where
  revision : Nat
  subMeshes : List SubMesh
  skinnedMeshCount : Nat
  blasInstances : List (Nat × BlasInstance)
  tlasBufferPresent : Bool
deriving DecidableEq, Repr

/-- The pass's own persistent members: `m_rayTracingRevision` and
`m_frameCount`. -/
structure PassState where
  rayTracingRevision : Nat
  frameCount : Nat
deriving DecidableEq, Repr

/-- Commands recorded on the command list by `BuildCommandList`. -/
inductive Cmd where
  | buildBlas (blas : Nat)
  | updateBlas (blas : Nat)
  | buildTlas
deriving DecidableEq, Repr

/-- Whether a command is a bottom-level (BLAS) command. -/
def Cmd.isBlas : Cmd → Bool
  | .buildTlas => false
  | _ => true

/-- The per-sub-mesh command choice inside the BLAS loop of
`BuildCommandList` (source lines 172-194): an unconditional build when the
instance has not been built, otherwise update when
`isSkinnedMesh && (assetGuid + submeshIndex + m_frameCount) % interval != 0`,
otherwise build. -/
def submeshCmd (interval frameCount guidHash : Nat) (blasBuilt isSkinnedMesh : Bool)
    (submeshIndex blas : Nat) : Cmd :=
  if blasBuilt = false then
    Cmd.buildBlas blas
  else if isSkinnedMesh && (guidHash + submeshIndex + frameCount) % interval != 0 then
    Cmd.updateBlas blas
  else
    Cmd.buildBlas blas

/-- The `for (auto submeshIndex = 0; ...)` loop over an instance's sub-mesh
BLAS references; `m_blasBuilt` is only written after the loop, so the value
read inside the loop is the value on entry. -/
def instanceCmds (interval frameCount guidHash : Nat) (blasBuilt isSkinnedMesh : Bool) :
    Nat → List Nat → List Cmd
  | _, [] => []
  | submeshIndex, blas :: rest =>
      submeshCmd interval frameCount guidHash blasBuilt isSkinnedMesh submeshIndex blas ::
        instanceCmds interval frameCount guidHash blasBuilt isSkinnedMesh (submeshIndex + 1) rest

/-- Processing of one `BlasInstanceMap` entry by `BuildCommandList`
(source lines 165-199): commands are emitted only when
`m_blasBuilt == false || m_isSkinnedMesh`, and in that case `m_blasBuilt`
is set afterwards. -/
def processInstance (interval frameCount : Nat) (entry : Nat × BlasInstance) :
    List Cmd × (Nat × BlasInstance) :=
  if entry.2.blasBuilt = false || entry.2.isSkinnedMesh then
    (instanceCmds interval frameCount entry.1 entry.2.blasBuilt entry.2.isSkinnedMesh 0
        entry.2.subMeshes,
     (entry.1, { entry.2 with blasBuilt := true }))
  else
    ([], entry)

/-- `RayTracingAccelerationStructurePass::BuildCommandList`
(source lines 133-205). Returns the recorded commands, the updated pass
state, and the updated feature-processor state (only the per-instance
`m_blasBuilt` flags can change). Guards in source order: missing feature
processor, missing TLAS buffer, unchanged revision with zero skinned meshes;
then the revision commit; then the zero-sub-mesh exit; then the BLAS loop,
the single TLAS build, and the frame-count increment. -/
def buildCommandList (interval : Nat) (fp? : Option FeatureProcessorState) (pass : PassState) :
    List Cmd × PassState × Option FeatureProcessorState :=
  match fp? with
  | none => ([], pass, none)
  | some fp =>
    if fp.tlasBufferPresent = false then
      ([], pass, some fp)
    else if fp.revision == pass.rayTracingRevision && fp.skinnedMeshCount == 0 then
      ([], pass, some fp)
    else
      let pass1 : PassState := { pass with rayTracingRevision := fp.revision }
      if fp.subMeshes.length == 0 then
        ([], pass1, some fp)
      else
        let processed := fp.blasInstances.map (processInstance interval pass1.frameCount)
        let blasCmds := (processed.map Prod.fst).flatten
        (blasCmds ++ [Cmd.buildTlas],
         { pass1 with frameCount := pass1.frameCount + 1 },
         some { fp with blasInstances := processed.map Prod.snd })

/-- Frame-graph actions declared by `SetupFrameGraphDependencies`.
`useWriteTlasDontCare` is `UseShaderAttachment(desc, Write)` on the TLAS
attachment with `m_loadAction = DontCare`; `importTlasBuffer` is
`ImportBuffer(tlasAttachmentId, rayTracingTlasBuffer)`;
`useReadSkinnedMeshOutput` is the read dependency on the skinning pass's
`SkinnedMeshOutputStream` binding; `updateRayTracingSrgs` is the final
unconditional `UpdateRayTracingSrgs()` call. -/
inductive FgAction where
  | importTlasBuffer
  | useWriteTlasDontCare
  | useReadSkinnedMeshOutput
  | updateRayTracingSrgs
deriving DecidableEq, Repr

/-- Fatal terminations of `SetupFrameGraphDependencies`: the `AZ_Assert` on
`ImportBuffer` failure, a null dereference of the `FindAdjacentPass` result,
a null dereference of the `FindAttachmentBinding` result, and the
`AZ_Assert` on the read `UseShaderAttachment` failure. -/
inductive FatalError where
  | tlasImportFailed
  | skinningPassNotFound
  | skinningBindingNotFound
  | skinnedReadAttachFailed
deriving DecidableEq, Repr

/-- Collaborator behaviour observed by `SetupFrameGraphDependencies`:
whether `IsAttachmentValid(tlasAttachmentId)` already holds, whether
`ImportBuffer` returns `Success`, whether `FindAdjacentPass("SkinningPass")`
returns non-null, whether `FindAttachmentBinding("SkinnedMeshOutputStream")`
returns non-null, and whether the read `UseShaderAttachment` returns
`Success`. -/
structure FrameGraphEnv where
  tlasAttachmentValid : Bool
  importResultSuccess : Bool
  skinningPassFound : Bool
  skinningBindingFound : Bool
  readAttachResultSuccess : Bool
deriving DecidableEq, Repr

/-- `RayTracingAccelerationStructurePass::SetupFrameGraphDependencies`
(source lines 53-131). With no feature processor nothing happens. Otherwise,
when the revision differs from `m_rayTracingRevision`, the TLAS descriptor
is built and `CreateBuffers` is invoked (external allocation), and if the
TLAS buffer is non-null and the sub-mesh count non-zero the buffer is
imported (only when the attachment is not already valid, fatally asserting
on failure) and a write dependency with the DontCare load action is
declared. Independently of the revision, when `GetSkinnedMeshCount() > 0`
the skinning pass and its output binding are located (null dereference if
missing) and a read dependency is declared (fatally asserting on failure).
Finally `UpdateRayTracingSrgs()` runs unconditionally. The revision-gated
TLAS-attachment block (source lines 62-113) is split out as
`tlasAttachmentActs`. -/
def tlasAttachmentActs (env : FrameGraphEnv) (fp : FeatureProcessorState) (pass : PassState) :
    Except FatalError (List FgAction) :=
  if fp.revision != pass.rayTracingRevision then
    if fp.tlasBufferPresent && fp.subMeshes.length != 0 then
      if env.tlasAttachmentValid = false then
        if env.importResultSuccess then
          Except.ok [FgAction.importTlasBuffer, FgAction.useWriteTlasDontCare]
        else
          Except.error FatalError.tlasImportFailed
      else
        Except.ok [FgAction.useWriteTlasDontCare]
    else
      Except.ok []
  else
    Except.ok []

/-- The skinning-dependency block of `SetupFrameGraphDependencies` (source
lines 115-123) followed by the unconditional `UpdateRayTracingSrgs()` call
(source line 129), continuing from the actions `acts1` of the TLAS block:
whenever `GetSkinnedMeshCount() > 0`, and independently of the revision,
the skinning pass and its output binding are located (fatal when missing)
and the read dependency is declared (fatal when it fails). -/
def skinningActs (env : FrameGraphEnv) (fp : FeatureProcessorState) (acts1 : List FgAction) :
    Except FatalError (List FgAction) :=
  if 0 < fp.skinnedMeshCount then
    if env.skinningPassFound = false then
      Except.error FatalError.skinningPassNotFound
    else if env.skinningBindingFound = false then
      Except.error FatalError.skinningBindingNotFound
    else if env.readAttachResultSuccess = false then
      Except.error FatalError.skinnedReadAttachFailed
    else
      Except.ok (acts1 ++ [FgAction.useReadSkinnedMeshOutput, FgAction.updateRayTracingSrgs])
  else
    Except.ok (acts1 ++ [FgAction.updateRayTracingSrgs])

/-- The whole of `SetupFrameGraphDependencies`: nothing without a feature
processor; otherwise the revision-gated TLAS block (`tlasAttachmentActs`),
then the skinning block and the unconditional refresh (`skinningActs`). -/
def setupFrameGraphDependencies (env : FrameGraphEnv) (fp? : Option FeatureProcessorState)
    (pass : PassState) : Except FatalError (List FgAction) :=
  match fp? with
  | none => Except.ok []
  | some fp =>
    match tlasAttachmentActs env fp pass with
    | Except.error e => Except.error e
    | Except.ok acts1 => skinningActs env fp acts1

/-- Whether a `setupFrameGraphDependencies` run terminated fatally. -/
def isFatal (r : Except FatalError (List FgAction)) : Bool :=
  match r with
  | Except.error _ => true
  | Except.ok _ => false

/-! Concrete sample inputs used to exhibit non-vacuity of the theorems. -/

/-- A fully opaque sample sub-mesh (alpha 1, hence not transparent). -/
def demoSubMesh0 : SubMesh :=
  { instanceMask := 3, blas := 10, transform := 20, nonUniformScale := 30, irradianceColorA := 1 }

/-- A transparent sample sub-mesh (alpha 1/2). -/
def demoSubMesh1 : SubMesh :=
  { instanceMask := 4, blas := 11, transform := 21, nonUniformScale := 31,
    irradianceColorA := (1 : Rat) / 2 }

/-- A two-element sub-mesh vector. -/
def demoSubMeshes : List SubMesh := [demoSubMesh0, demoSubMesh1]

/-- A sample pass state. -/
def demoPass : PassState := { rayTracingRevision := 5, frameCount := 7 }

/-- Feature-processor state with no TLAS buffer yet but a bumped revision. -/
def c1Fp : FeatureProcessorState :=
  { revision := 6, subMeshes := [], skinnedMeshCount := 0, blasInstances := [],
    tlasBufferPresent := false }

/-- Feature-processor state with an unchanged revision and no skinned meshes. -/
def c2Fp : FeatureProcessorState :=
  { revision := 5, subMeshes := [demoSubMesh0], skinnedMeshCount := 0,
    blasInstances := [(11, { subMeshes := [10], blasBuilt := true, isSkinnedMesh := false })],
    tlasBufferPresent := true }

/-- A never-built skinned map entry. -/
def c4Entry : Nat × BlasInstance :=
  (7, { subMeshes := [1, 2], blasBuilt := false, isSkinnedMesh := true })

/-- An already-built non-skinned map entry. -/
def c4EntryBuilt : Nat × BlasInstance :=
  (8, { subMeshes := [3], blasBuilt := true, isSkinnedMesh := false })

/-- An already-built skinned map entry. -/
def c4EntrySkinned : Nat × BlasInstance :=
  (9, { subMeshes := [4], blasBuilt := true, isSkinnedMesh := true })

/-- A never-built instance with no sub-meshes. -/
def c10Inst : BlasInstance := { subMeshes := [], blasBuilt := false, isSkinnedMesh := false }

/-- Feature-processor state with a changed revision and one never-built instance. -/
def c7Fp : FeatureProcessorState :=
  { revision := 6, subMeshes := [demoSubMesh0], skinnedMeshCount := 0,
    blasInstances := [(7, { subMeshes := [10], blasBuilt := false, isSkinnedMesh := false })],
    tlasBufferPresent := true }

/-- Collaborator environment where every lookup and declaration succeeds. -/
def c8Env : FrameGraphEnv :=
  { tlasAttachmentValid := false, importResultSuccess := true, skinningPassFound := true,
    skinningBindingFound := true, readAttachResultSuccess := true }

/-- Collaborator environment where the skinning pass is missing. -/
def c8EnvBad : FrameGraphEnv :=
  { tlasAttachmentValid := false, importResultSuccess := true, skinningPassFound := false,
    skinningBindingFound := true, readAttachResultSuccess := true }

/-- Feature-processor state with one skinned mesh and an unchanged revision. -/
def c8Fp : FeatureProcessorState :=
  { revision := 5, subMeshes := [demoSubMesh0], skinnedMeshCount := 1, blasInstances := [],
    tlasBufferPresent := true }

/-- Environment where the TLAS attachment is already registered. -/
def c9Env : FrameGraphEnv :=
  { tlasAttachmentValid := true, importResultSuccess := true, skinningPassFound := true,
    skinningBindingFound := true, readAttachResultSuccess := true }

/-- Feature-processor state with a changed revision, a TLAS buffer and one sub-mesh. -/
def c9Fp : FeatureProcessorState :=
  { revision := 4, subMeshes := [demoSubMesh0], skinnedMeshCount := 0, blasInstances := [],
    tlasBufferPresent := true }

/-! Helper lemmas shared between the claim theorems. -/

theorem submeshCmd_notBuilt (interval frameCount guidHash : Nat) (isSkinnedMesh : Bool)
    (submeshIndex blas : Nat) :
    submeshCmd interval frameCount guidHash false isSkinnedMesh submeshIndex blas =
      Cmd.buildBlas blas := rfl

theorem submeshCmd_build_iff (interval frameCount guidHash submeshIndex blas : Nat) :
    submeshCmd interval frameCount guidHash true true submeshIndex blas = Cmd.buildBlas blas ↔
      (guidHash + submeshIndex + frameCount) % interval = 0 := by
  by_cases h : (guidHash + submeshIndex + frameCount) % interval = 0 <;>
    simp [submeshCmd, h]

theorem submeshCmd_isBlas (interval frameCount guidHash : Nat) (blasBuilt isSkinnedMesh : Bool)
    (submeshIndex blas : Nat) :
    (submeshCmd interval frameCount guidHash blasBuilt isSkinnedMesh submeshIndex blas).isBlas =
      true := by
  unfold submeshCmd
  split
  · rfl
  · split <;> rfl

theorem instanceCmds_notBuilt (interval frameCount guidHash : Nat) (isSkinnedMesh : Bool) :
    ∀ (start : Nat) (l : List Nat),
      instanceCmds interval frameCount guidHash false isSkinnedMesh start l =
        l.map Cmd.buildBlas := by
  intro start l
  induction l generalizing start with
  | nil => rfl
  | cons b rest ih =>
    simp [instanceCmds, submeshCmd_notBuilt, ih (start + 1)]

theorem instanceCmds_isBlas (interval frameCount guidHash : Nat) (blasBuilt isSkinnedMesh : Bool) :
    ∀ (start : Nat) (l : List Nat) (c : Cmd),
      c ∈ instanceCmds interval frameCount guidHash blasBuilt isSkinnedMesh start l →
        c.isBlas = true := by
  intro start l
  induction l generalizing start with
  | nil =>
    intro c hc
    simp [instanceCmds] at hc
  | cons b rest ih =>
    intro c hc
    simp only [instanceCmds, List.mem_cons] at hc
    rcases hc with h | h
    · rw [h]
      exact submeshCmd_isBlas interval frameCount guidHash blasBuilt isSkinnedMesh start b
    · exact ih (start + 1) c h

theorem processInstance_isBlas (interval frameCount : Nat) (entry : Nat × BlasInstance) :
    ∀ c ∈ (processInstance interval frameCount entry).1, c.isBlas = true := by
  intro c hc
  unfold processInstance at hc
  split at hc
  · exact instanceCmds_isBlas interval frameCount entry.1 entry.2.blasBuilt entry.2.isSkinnedMesh
      0 entry.2.subMeshes c hc
  · simp at hc

/-- C2: for every frame in which the observed revision equals the stored
last-processed revision and the skinned-mesh count is zero, `BuildCommandList`
emits no commands and leaves the pass state (stored revision, frame counter)
and the feature-processor state (hence every built flag) unchanged. -/
theorem C2_strict_noop (interval : Nat) (fp : FeatureProcessorState) (pass : PassState)
    (hrev : fp.revision = pass.rayTracingRevision)
    (hskin : fp.skinnedMeshCount = 0) :
    buildCommandList interval (some fp) pass = ([], pass, some fp) := by
  by_cases hbuf : fp.tlasBufferPresent = false
  · simp [buildCommandList, hbuf]
  · simp [buildCommandList, hbuf, hrev, hskin]

/-- Witness for C2 at a concrete state. -/
theorem C2_strict_noop_witness :
    buildCommandList 8 (some c2Fp) demoPass = ([], demoPass, some c2Fp) :=
  C2_strict_noop 8 c2Fp demoPass rfl rfl

/-- C4: a map entry that is not yet built receives one unconditional full
build command per sub-mesh (never an update), regardless of its skinned
status, and its built flag is set; an already-built non-skinned entry is
skipped entirely, with no commands and no state change; and a built flag,
once true, stays true. -/
theorem C4_built_transition (interval frameCount : Nat) (entry : Nat × BlasInstance) :
    (entry.2.blasBuilt = false →
      (processInstance interval frameCount entry).1 = entry.2.subMeshes.map Cmd.buildBlas ∧
      (processInstance interval frameCount entry).2.2.blasBuilt = true) ∧
    (entry.2.blasBuilt = true → entry.2.isSkinnedMesh = false →
      processInstance interval frameCount entry = ([], entry)) ∧
    (entry.2.blasBuilt = true →
      (processInstance interval frameCount entry).2.2.blasBuilt = true) := by
  refine ⟨?_, ?_, ?_⟩
  · intro hnb
    unfold processInstance
    rw [hnb]
    simp [instanceCmds_notBuilt]
  · intro hb hns
    unfold processInstance
    rw [hb, hns]
    simp
  · intro hb
    unfold processInstance
    split
    · simp
    · simpa using hb

/-- Witness for C4 at three concrete map entries. -/
theorem C4_built_transition_witness :
    ((processInstance 8 0 c4Entry).1 = c4Entry.2.subMeshes.map Cmd.buildBlas ∧
      (processInstance 8 0 c4Entry).2.2.blasBuilt = true) ∧
    processInstance 8 0 c4EntryBuilt = ([], c4EntryBuilt) ∧
    (processInstance 8 0 c4EntrySkinned).2.2.blasBuilt = true :=
  ⟨(C4_built_transition 8 0 c4Entry).1 rfl,
   (C4_built_transition 8 0 c4EntryBuilt).2.1 rfl rfl,
   (C4_built_transition 8 0 c4EntrySkinned).2.2 rfl⟩

/-- C5: for an already-built skinned entry, the per-sub-mesh command is a
pure function of the asset-GUID hash, the sub-mesh index, the frame counter
and the rebuild interval: a full build exactly when
`(guidHash + submeshIndex + frameCount) % interval = 0`, an incremental
update otherwise. -/
theorem C5_rebuild_decision (interval frameCount guidHash submeshIndex blas : Nat) :
    submeshCmd interval frameCount guidHash true true submeshIndex blas =
      (if (guidHash + submeshIndex + frameCount) % interval = 0 then Cmd.buildBlas blas
       else Cmd.updateBlas blas) := by
  by_cases h : (guidHash + submeshIndex + frameCount) % interval = 0 <;>
    simp [submeshCmd, h]

/-- C10: a never-built entry with an empty sub-mesh list emits no commands
yet still has its built flag set, and (when non-skinned) every later frame
skips it entirely. -/
theorem C10_empty_instance (interval frameCount frameCount2 guidHash : Nat)
    (inst : BlasInstance) (hempty : inst.subMeshes = []) (hnb : inst.blasBuilt = false) :
    (processInstance interval frameCount (guidHash, inst)).1 = [] ∧
    (processInstance interval frameCount (guidHash, inst)).2.2.blasBuilt = true ∧
    (inst.isSkinnedMesh = false →
      processInstance interval frameCount2 (guidHash, { inst with blasBuilt := true }) =
        ([], (guidHash, { inst with blasBuilt := true }))) := by
  refine ⟨?_, ?_, ?_⟩
  · unfold processInstance
    rw [hnb]
    simp [hempty, instanceCmds]
  · unfold processInstance
    rw [hnb]
    simp
  · intro hns
    unfold processInstance
    simp [hns]

/-- Witness for C10 at a concrete empty instance. -/
theorem C10_empty_instance_witness :
    (processInstance 8 0 (7, c10Inst)).1 = [] ∧
    (processInstance 8 0 (7, c10Inst)).2.2.blasBuilt = true ∧
    processInstance 8 1 (7, { c10Inst with blasBuilt := true }) =
      ([], (7, { c10Inst with blasBuilt := true })) := by
  have h := C10_empty_instance 8 0 1 7 c10Inst rfl rfl
  exact ⟨h.1, h.2.1, h.2.2 rfl⟩

/-- C1 (counterexample): with a changed revision but no TLAS buffer,
`BuildCommandList` returns at the buffer guard before the revision commit,
so the stored revision still differs from the observed one afterwards. -/
theorem C1_counterexample :
    c1Fp.revision ≠ demoPass.rayTracingRevision ∧
    (buildCommandList 8 (some c1Fp) demoPass).2.1.rayTracingRevision ≠ c1Fp.revision := by
  decide

/-- C1 (amended): provided a feature processor is registered and the TLAS
buffer exists, every frame in which the observed revision differs from the
stored one ends with the stored revision equal to the observed one, even if
the sub-mesh count is zero. -/
theorem C1_revision_committed (interval : Nat) (fp : FeatureProcessorState) (pass : PassState)
    (hbuf : fp.tlasBufferPresent = true)
    (hrev : fp.revision ≠ pass.rayTracingRevision) :
    (buildCommandList interval (some fp) pass).2.1.rayTracingRevision = fp.revision := by
  have hbuf2 : (fp.tlasBufferPresent = false) = False := by simp [hbuf]
  have h1 : ((fp.revision == pass.rayTracingRevision && fp.skinnedMeshCount == 0) = true) =
      False := by
    simp [hrev]
  simp only [buildCommandList, hbuf2, h1, if_false]
  split <;> rfl

/-- Witness for the amended C1 at a concrete state with zero skinned meshes
and a bumped revision. -/
theorem C1_revision_committed_witness :
    c7Fp.tlasBufferPresent = true ∧ c7Fp.revision ≠ demoPass.rayTracingRevision ∧
    (buildCommandList 8 (some c7Fp) demoPass).2.1.rayTracingRevision = c7Fp.revision :=
  ⟨rfl, by decide, C1_revision_committed 8 c7Fp demoPass rfl (by decide)⟩

theorem buildTlasInstances_length (start : Nat) (l : List SubMesh) :
    (buildTlasInstances start l).length = l.length := by
  induction l generalizing start with
  | nil => rfl
  | cons sm rest ih => simp [buildTlasInstances, ih (start + 1)]

theorem buildTlasInstances_get (l : List SubMesh) :
    ∀ (start i : Nat) (hd : i < (buildTlasInstances start l).length) (hs : i < l.length),
      (buildTlasInstances start l).get ⟨i, hd⟩ = mkInstanceDesc (start + i) (l.get ⟨i, hs⟩) := by
  induction l with
  | nil =>
    intro start i hd hs
    simp at hs
  | cons sm rest ih =>
    intro start i hd hs
    cases i with
    | zero => simp [buildTlasInstances]
    | succ n =>
      have hd2 : n < (buildTlasInstances (start + 1) rest).length := by
        rw [buildTlasInstances_length]
        rw [buildTlasInstances_length] at hd
        simpa using hd
      have hs2 : n < rest.length := by simpa using hs
      have heq : start + (n + 1) = (start + 1) + n := by omega
      calc (buildTlasInstances start (sm :: rest)).get ⟨n + 1, hd⟩
          = (buildTlasInstances (start + 1) rest).get ⟨n, hd2⟩ := rfl
        _ = mkInstanceDesc ((start + 1) + n) (rest.get ⟨n, hs2⟩) := ih (start + 1) n hd2 hs2
        _ = mkInstanceDesc ((start + 1) + n) ((sm :: rest).get ⟨n + 1, hs⟩) := rfl
        _ = mkInstanceDesc (start + (n + 1)) ((sm :: rest).get ⟨n + 1, hs⟩) := by rw [heq]

/-- C3: the TLAS descriptor has exactly one instance descriptor per
sub-mesh; the descriptor at position i carries instance ID i, the sub-mesh's
visibility mask, hit-group index 0, the sub-mesh's BLAS reference, the
transform and non-uniform scale verbatim, and a transparency flag that holds
exactly when the opacity (irradiance alpha) is strictly below 1. -/
theorem C3_tlas_descriptor (subMeshes : List SubMesh) :
    (buildTlasDescriptor subMeshes).length = subMeshes.length ∧
    ∀ (i : Nat) (hd : i < (buildTlasDescriptor subMeshes).length) (hs : i < subMeshes.length),
      ((buildTlasDescriptor subMeshes).get ⟨i, hd⟩).instanceID = i ∧
      ((buildTlasDescriptor subMeshes).get ⟨i, hd⟩).instanceMask =
        (subMeshes.get ⟨i, hs⟩).instanceMask ∧
      ((buildTlasDescriptor subMeshes).get ⟨i, hd⟩).hitGroupIndex = 0 ∧
      ((buildTlasDescriptor subMeshes).get ⟨i, hd⟩).blas = (subMeshes.get ⟨i, hs⟩).blas ∧
      ((buildTlasDescriptor subMeshes).get ⟨i, hd⟩).transform =
        (subMeshes.get ⟨i, hs⟩).transform ∧
      ((buildTlasDescriptor subMeshes).get ⟨i, hd⟩).nonUniformScale =
        (subMeshes.get ⟨i, hs⟩).nonUniformScale ∧
      (((buildTlasDescriptor subMeshes).get ⟨i, hd⟩).transparent = true ↔
        (subMeshes.get ⟨i, hs⟩).irradianceColorA < 1) := by
  constructor
  · exact buildTlasInstances_length 0 subMeshes
  · intro i hd hs
    have hg := buildTlasInstances_get subMeshes 0 i hd hs
    rw [Nat.zero_add] at hg
    have hg2 : (buildTlasDescriptor subMeshes).get ⟨i, hd⟩ =
        mkInstanceDesc i (subMeshes.get ⟨i, hs⟩) := hg
    refine ⟨?_, ?_, ?_, ?_, ?_, ?_, ?_⟩ <;> rw [hg2] <;> simp [mkInstanceDesc]

/-- Witness for C3 on a two-sub-mesh vector with one transparent entry. -/
theorem C3_tlas_descriptor_witness :
    (buildTlasDescriptor demoSubMeshes).length = demoSubMeshes.length ∧
    ((buildTlasDescriptor demoSubMeshes).get ⟨1, by decide⟩).instanceID = 1 ∧
    (((buildTlasDescriptor demoSubMeshes).get ⟨1, by decide⟩).transparent = true ↔
      (demoSubMeshes.get ⟨1, by decide⟩).irradianceColorA < 1) := by
  have h := C3_tlas_descriptor demoSubMeshes
  have h2 := h.2 1 (by decide) (by decide)
  exact ⟨h.1, h2.1, h2.2.2.2.2.2.2⟩

theorem window_mem_iff (I c k : Nat) (hI : 0 < I) (hk : k < I) :
    (c + k) % I = 0 ↔ k = (I - c % I) % I := by
  have hck : (c + k) % I = (c % I + k) % I := by
    conv_lhs => rw [Nat.add_mod]
    rw [Nat.mod_eq_of_lt hk]
  rw [hck]
  rcases Nat.eq_zero_or_pos (c % I) with h0 | hpos
  · rw [h0, Nat.zero_add, Nat.mod_eq_of_lt hk, Nat.sub_zero, Nat.mod_self]
  · have hr : c % I < I := Nat.mod_lt _ hI
    have hlt : I - c % I < I := by omega
    rw [Nat.mod_eq_of_lt hlt]
    rcases Nat.lt_or_ge (c % I + k) I with hlt2 | hge
    · rw [Nat.mod_eq_of_lt hlt2]
      omega
    · rw [Nat.mod_eq_sub_mod hge]
      have hlt3 : c % I + k - I < I := by omega
      rw [Nat.mod_eq_of_lt hlt3]
      omega

theorem window_filter_card (I c : Nat) (hI : 0 < I) :
    ((Finset.range I).filter (fun k => (c + k) % I = 0)).card = 1 := by
  have hmem : (I - c % I) % I < I := Nat.mod_lt _ hI
  have hset : (Finset.range I).filter (fun k => (c + k) % I = 0) = {(I - c % I) % I} := by
    ext k
    simp only [Finset.mem_filter, Finset.mem_range, Finset.mem_singleton]
    constructor
    · rintro ⟨hk, h0⟩
      exact (window_mem_iff I c k hI hk).mp h0
    · intro hk
      subst hk
      exact ⟨hmem, (window_mem_iff I c _ hI hmem).mpr rfl⟩
  rw [hset, Finset.card_singleton]

/-- C6: for a fixed already-built skinned entry and fixed sub-mesh index,
across any window of `interval` consecutive frame-counter values exactly one
frame selects the full-rebuild branch. -/
theorem C6_one_rebuild_per_window (interval guidHash submeshIndex blas f0 : Nat)
    (h : 0 < interval) :
    ((Finset.range interval).filter
      (fun k => submeshCmd interval (f0 + k) guidHash true true submeshIndex blas =
        Cmd.buildBlas blas)).card = 1 := by
  have hiff : ∀ k,
      (submeshCmd interval (f0 + k) guidHash true true submeshIndex blas =
        Cmd.buildBlas blas) ↔ ((guidHash + submeshIndex + f0) + k) % interval = 0 := by
    intro k
    rw [submeshCmd_build_iff]
    have heq : guidHash + submeshIndex + (f0 + k) = guidHash + submeshIndex + f0 + k := by
      omega
    rw [heq]
  have hfil : (Finset.range interval).filter
      (fun k => submeshCmd interval (f0 + k) guidHash true true submeshIndex blas =
        Cmd.buildBlas blas) =
      (Finset.range interval).filter
        (fun k => ((guidHash + submeshIndex + f0) + k) % interval = 0) := by
    apply Finset.filter_congr
    intro k _
    exact hiff k
  rw [hfil]
  exact window_filter_card interval (guidHash + submeshIndex + f0) h

/-- Witness for C6 with interval 4 and a concrete sub-mesh. -/
theorem C6_one_rebuild_per_window_witness :
    ((Finset.range 4).filter
      (fun k => submeshCmd 4 (0 + k) 5 true true 2 9 = Cmd.buildBlas 9)).card = 1 :=
  C6_one_rebuild_per_window 4 5 2 9 0 (by decide)

theorem setup_of_tlas_ok (env : FrameGraphEnv) (fp : FeatureProcessorState) (pass : PassState)
    (acts1 : List FgAction) (h : tlasAttachmentActs env fp pass = Except.ok acts1) :
    setupFrameGraphDependencies env (some fp) pass = skinningActs env fp acts1 := by
  simp only [setupFrameGraphDependencies, h]

theorem setup_of_tlas_err (env : FrameGraphEnv) (fp : FeatureProcessorState) (pass : PassState)
    (e : FatalError) (h : tlasAttachmentActs env fp pass = Except.error e) :
    setupFrameGraphDependencies env (some fp) pass = Except.error e := by
  simp only [setupFrameGraphDependencies, h]

theorem flatten_processed_isBlas (interval frameCount : Nat)
    (entries : List (Nat × BlasInstance)) :
    ∀ c ∈ ((entries.map (processInstance interval frameCount)).map Prod.fst).flatten,
      c.isBlas = true := by
  intro c hc
  rw [List.mem_flatten] at hc
  rcases hc with ⟨l, hl, hcl⟩
  rw [List.mem_map] at hl
  rcases hl with ⟨pr, hpr, hfst⟩
  rw [List.mem_map] at hpr
  rcases hpr with ⟨entry, hentry, hpe⟩
  subst hpe
  subst hfst
  exact processInstance_isBlas interval frameCount entry c hcl

/-- C7: whenever `BuildCommandList` emits any commands, they consist of all
the per-instance BLAS build/update commands followed by exactly one final
TLAS build, and the frame counter then increments by exactly one; when no
commands are emitted the frame counter is unchanged. -/
theorem C7_emission_order (interval : Nat) (fp? : Option FeatureProcessorState)
    (pass : PassState) :
    ((buildCommandList interval fp? pass).1 = [] →
      (buildCommandList interval fp? pass).2.1.frameCount = pass.frameCount) ∧
    ((buildCommandList interval fp? pass).1 ≠ [] →
      ∃ blasCmds : List Cmd,
        (buildCommandList interval fp? pass).1 = blasCmds ++ [Cmd.buildTlas] ∧
        (∀ c ∈ blasCmds, c.isBlas = true) ∧
        (buildCommandList interval fp? pass).2.1.frameCount = pass.frameCount + 1) := by
  match fp? with
  | none => exact ⟨fun _ => rfl, fun h => absurd rfl h⟩
  | some fp =>
    simp only [buildCommandList]
    split
    · exact ⟨fun _ => rfl, fun h => absurd rfl h⟩
    · split
      · exact ⟨fun _ => rfl, fun h => absurd rfl h⟩
      · split
        · exact ⟨fun _ => rfl, fun h => absurd rfl h⟩
        · constructor
          · intro h
            simp at h
          · intro _
            refine ⟨_, rfl, ?_, rfl⟩
            exact flatten_processed_isBlas interval pass.frameCount fp.blasInstances

/-- Witness for C7: a no-op frame (no feature processor) and an emitting
frame at concrete states. -/
theorem C7_emission_order_witness :
    (buildCommandList 8 none demoPass).2.1.frameCount = demoPass.frameCount ∧
    (buildCommandList 8 (some c7Fp) demoPass).2.1.frameCount = demoPass.frameCount + 1 := by
  constructor
  · exact (C7_emission_order 8 none demoPass).1 rfl
  · rcases (C7_emission_order 8 (some c7Fp) demoPass).2 (by decide) with ⟨bc, h1, h2, h3⟩
    exact h3

/-- C8: with at least one skinned mesh present, a successful dependency
declaration implies the skinning pass and its output binding were found,
the read declaration succeeded, and the read dependency is among the
declared actions, unconditionally on the revision; and a missing pass,
missing binding, or failed declaration makes the run fatal. -/
theorem C8_skinning_dependency (env : FrameGraphEnv) (fp : FeatureProcessorState)
    (pass : PassState) (hskin : 0 < fp.skinnedMeshCount) :
    (∀ acts, setupFrameGraphDependencies env (some fp) pass = Except.ok acts →
      env.skinningPassFound = true ∧ env.skinningBindingFound = true ∧
      env.readAttachResultSuccess = true ∧ FgAction.useReadSkinnedMeshOutput ∈ acts) ∧
    ((env.skinningPassFound = false ∨ env.skinningBindingFound = false ∨
        env.readAttachResultSuccess = false) →
      isFatal (setupFrameGraphDependencies env (some fp) pass) = true) := by
  cases htl : tlasAttachmentActs env fp pass with
  | error e =>
    rw [setup_of_tlas_err env fp pass e htl]
    refine ⟨fun acts hacts => ?_, fun _ => rfl⟩
    exact Except.noConfusion hacts
  | ok acts1 =>
    rw [setup_of_tlas_ok env fp pass acts1 htl]
    simp only [skinningActs]
    rw [if_pos hskin]
    by_cases hp : env.skinningPassFound = false
    · rw [if_pos hp]
      refine ⟨fun acts hacts => ?_, fun _ => rfl⟩
      exact Except.noConfusion hacts
    · rw [if_neg hp]
      have hp2 : env.skinningPassFound = true := by
        revert hp
        cases env.skinningPassFound <;> simp
      by_cases hb : env.skinningBindingFound = false
      · rw [if_pos hb]
        refine ⟨fun acts hacts => ?_, fun _ => rfl⟩
        exact Except.noConfusion hacts
      · rw [if_neg hb]
        have hb2 : env.skinningBindingFound = true := by
          revert hb
          cases env.skinningBindingFound <;> simp
        by_cases hr : env.readAttachResultSuccess = false
        · rw [if_pos hr]
          refine ⟨fun acts hacts => ?_, fun _ => rfl⟩
          exact Except.noConfusion hacts
        · rw [if_neg hr]
          have hr2 : env.readAttachResultSuccess = true := by
            revert hr
            cases env.readAttachResultSuccess <;> simp
          constructor
          · intro acts hacts
            injection hacts with hacts
            refine ⟨hp2, hb2, hr2, ?_⟩
            rw [← hacts]
            simp
          · intro hbad
            rcases hbad with hbad | hbad | hbad
            · rw [hp2] at hbad
              exact Bool.noConfusion hbad
            · rw [hb2] at hbad
              exact Bool.noConfusion hbad
            · rw [hr2] at hbad
              exact Bool.noConfusion hbad

/-- Witness for C8: a fully successful environment and one with the
skinning pass missing, at a concrete skinned-mesh state. -/
theorem C8_skinning_dependency_witness :
    (c8Env.skinningPassFound = true ∧ c8Env.skinningBindingFound = true ∧
      c8Env.readAttachResultSuccess = true ∧
      FgAction.useReadSkinnedMeshOutput ∈
        [FgAction.useReadSkinnedMeshOutput, FgAction.updateRayTracingSrgs]) ∧
    isFatal (setupFrameGraphDependencies c8EnvBad (some c8Fp) demoPass) = true := by
  constructor
  · exact (C8_skinning_dependency c8Env c8Fp demoPass (by decide)).1
      [FgAction.useReadSkinnedMeshOutput, FgAction.updateRayTracingSrgs] rfl
  · exact (C8_skinning_dependency c8EnvBad c8Fp demoPass (by decide)).2 (Or.inl rfl)

/-- C9: during dependency declaration with a changed revision, on every
non-fatal run the write dependency on the TLAS attachment is declared
exactly when the TLAS buffer exists and at least one sub-mesh is present,
and when either condition fails no import of the TLAS buffer is declared
either. -/
theorem C9_tlas_write_dependency (env : FrameGraphEnv) (fp : FeatureProcessorState)
    (pass : PassState) (hrev : fp.revision ≠ pass.rayTracingRevision) :
    ∀ acts, setupFrameGraphDependencies env (some fp) pass = Except.ok acts →
      ((FgAction.useWriteTlasDontCare ∈ acts) ↔
        (fp.tlasBufferPresent = true ∧ fp.subMeshes.length ≠ 0)) ∧
      (¬(fp.tlasBufferPresent = true ∧ fp.subMeshes.length ≠ 0) →
        FgAction.importTlasBuffer ∉ acts) := by
  intro acts hacts
  have hrev2 : (fp.revision != pass.rayTracingRevision) = true := by simp [hrev]
  have hsuffix : ∀ acts1, tlasAttachmentActs env fp pass = Except.ok acts1 →
      acts = acts1 ++ [FgAction.useReadSkinnedMeshOutput, FgAction.updateRayTracingSrgs] ∨
      acts = acts1 ++ [FgAction.updateRayTracingSrgs] := by
    intro acts1 htl
    rw [setup_of_tlas_ok env fp pass acts1 htl] at hacts
    simp only [skinningActs] at hacts
    by_cases hs : 0 < fp.skinnedMeshCount
    · rw [if_pos hs] at hacts
      by_cases hp : env.skinningPassFound = false
      · rw [if_pos hp] at hacts
        exact Except.noConfusion hacts
      · rw [if_neg hp] at hacts
        by_cases hb : env.skinningBindingFound = false
        · rw [if_pos hb] at hacts
          exact Except.noConfusion hacts
        · rw [if_neg hb] at hacts
          by_cases hr : env.readAttachResultSuccess = false
          · rw [if_pos hr] at hacts
            exact Except.noConfusion hacts
          · rw [if_neg hr] at hacts
            injection hacts with hacts
            exact Or.inl hacts.symm
    · rw [if_neg hs] at hacts
      injection hacts with hacts
      exact Or.inr hacts.symm
  by_cases hcond : (fp.tlasBufferPresent && fp.subMeshes.length != 0) = true
  · have hcond2 : fp.tlasBufferPresent = true ∧ fp.subMeshes.length ≠ 0 := by
      simpa using hcond
    have hwrite : ∀ acts1, tlasAttachmentActs env fp pass = Except.ok acts1 →
        FgAction.useWriteTlasDontCare ∈ acts1 := by
      intro acts1 htl
      rw [tlasAttachmentActs] at htl
      rw [if_pos hrev2, if_pos hcond] at htl
      by_cases hv : env.tlasAttachmentValid = false
      · rw [if_pos hv] at htl
        by_cases hi : env.importResultSuccess = true
        · rw [if_pos hi] at htl
          injection htl with htl
          rw [← htl]
          simp
        · have hi2 : env.importResultSuccess = false := by
            revert hi
            cases env.importResultSuccess <;> simp
          rw [hi2] at htl
          exact Except.noConfusion htl
      · rw [if_neg hv] at htl
        injection htl with htl
        rw [← htl]
        simp
    cases htl : tlasAttachmentActs env fp pass with
    | error e =>
      rw [setup_of_tlas_err env fp pass e htl] at hacts
      exact Except.noConfusion hacts
    | ok acts1 =>
      have hmem := hwrite acts1 htl
      rcases hsuffix acts1 htl with h | h <;> subst h
      · refine ⟨?_, fun hbad => absurd hcond2 hbad⟩
        simp [hcond2, List.mem_append, hmem]
      · refine ⟨?_, fun hbad => absurd hcond2 hbad⟩
        simp [hcond2, List.mem_append, hmem]
  · have hcond2 : ¬(fp.tlasBufferPresent = true ∧ fp.subMeshes.length ≠ 0) := by
      intro hc
      apply hcond
      simp [hc.1, hc.2]
    have hempt : tlasAttachmentActs env fp pass = Except.ok [] := by
      rw [tlasAttachmentActs, if_pos hrev2]
      have hcf : (fp.tlasBufferPresent && fp.subMeshes.length != 0) = false := by
        revert hcond
        cases fp.tlasBufferPresent && fp.subMeshes.length != 0 <;> simp
      rw [hcf]
      simp
    rcases hsuffix [] hempt with h | h <;> subst h
    · exact ⟨⟨fun hmem => absurd hmem (by decide), fun hc => absurd hc hcond2⟩,
        fun _ => by decide⟩
    · exact ⟨⟨fun hmem => absurd hmem (by decide), fun hc => absurd hc hcond2⟩,
        fun _ => by decide⟩

/-- Witness for C9 at a concrete changed-revision state with a TLAS buffer
and one sub-mesh. -/
theorem C9_tlas_write_dependency_witness :
    (FgAction.useWriteTlasDontCare ∈
        [FgAction.useWriteTlasDontCare, FgAction.updateRayTracingSrgs]) ↔
      (c9Fp.tlasBufferPresent = true ∧ c9Fp.subMeshes.length ≠ 0) := by
  have h := C9_tlas_write_dependency c9Env c9Fp demoPass (by decide)
    [FgAction.useWriteTlasDontCare, FgAction.updateRayTracingSrgs] rfl
  exact h.1
